import Mathlib

/-!
Verification of the vast-csi driver (a CSI plugin for a NAS appliance)
against its natural-language specification.

The development shallowly embeds the relevant parts of `vast_csi/server.py`
and `vast_csi/vms_session.py`: pure decision logic becomes Lean functions,
the external collaborators (the VMS REST API, the kernel mount table, the
local filesystem) become explicit oracle parameters, and exceptions become
`Except` values.  The `Err.exc` constructor stands for any Python exception
that is not a CSI `Abort`; the dispatcher (`Instrumented.logged`,
server.py lines 132-182) maps `Abort` to its own status code and every
other exception to `UNKNOWN`.
-/

set_option linter.unusedVariables false

namespace VastCsi

/-- gRPC status codes bound in server.py lines 64-70. -/
inductive StatusCode
  | failedPrecondition
  | invalidArgument
  | alreadyExists
  | notFound
  | aborted
  | unknown
  | outOfRange
  deriving DecidableEq, Repr

/-- Exceptions escaping an RPC handler.  `abort` is the driver's `Abort`
exception (carrying an explicit status code and message); `exc` is any other
Python exception (rendered to its message), which the dispatcher maps to
`UNKNOWN`. -/
inductive Err
  | abort (code : StatusCode) (message : String)
  | exc (message : String)
  deriving DecidableEq, Repr

/-- Whether `a` is a prefix of `b` (character lists). -/
def charsLead : List Char → List Char → Bool
  | [], _ => true
  | _ :: _, [] => false
  | a :: as, b :: bs => a == b && charsLead as bs

/-- Whether `needle` occurs somewhere in `hay` (character lists). -/
def charsContain (needle : List Char) : List Char → Bool
  | [] => charsLead needle []
  | c :: t => charsLead needle (c :: t) || charsContain needle t

/-- Python's `needle in hay` on strings: substring containment. -/
def strContainsSub (hay needle : String) : Bool :=
  charsContain needle.data hay.data

/-- Strict lexicographic code-point order on character lists: the order
Python's `<` induces on strings. -/
def charsLt : List Char → List Char → Bool
  | [], [] => false
  | [], _ :: _ => true
  | _ :: _, [] => false
  | a :: as, b :: bs => a < b || (a == b && charsLt as bs)

/-- Reflexive closure of `charsLt` on strings: Python's `<=` on strings. -/
def pyStrLe (a b : String) : Bool :=
  a == b || charsLt a.data b.data

/-- Python's `sorted` on a list of strings: sorting by code-point
lexicographic order. -/
def pySorted (l : List String) : List String :=
  l.insertionSort (fun a b => pyStrLe a b = true)

/-- One split step of Python's `str.split(sep)` (single-character
separator, empty parts kept), on character lists with an accumulator. -/
def splitOnCharAux (sep : Char) : List Char → List Char → List (List Char)
  | [], acc => [acc.reverse]
  | c :: t, acc =>
    if c == sep then acc.reverse :: splitOnCharAux sep t []
    else splitOnCharAux sep t (c :: acc)

/-- Python's `s.split(sep)` for a single-character separator. -/
def pySplit (s : String) (sep : Char) : List String :=
  (splitOnCharAux sep s.data []).map (fun cs => ⟨cs⟩)

/-- Python truthiness of an optional string (gRPC string fields are absent or
non-empty; `None` and `""` are falsy). -/
def pyTruthyStr : Option String → Bool
  | none => false
  | some s => !(s == "")

/-- A quota record as returned by the VMS `quotas` endpoint
(the fields the driver reads: spec section 3). -/
structure Quota where
  id : Nat
  name : String
  path : String
  hard_limit : Int
  tenant_id : Nat
  deriving DecidableEq, Repr

/-- A snapshot record as returned by the VMS `snapshots` endpoint
(the fields the driver reads). -/
structure Snapshot where
  id : Nat
  path : String
  created : String
  deriving DecidableEq, Repr

/-- A VIP record as returned by the VMS `vips` endpoint.  `tenant_id` is
carried by the VMS record (spec sections 3 and 4.6) but — as proved below —
never inspected by `VmsSession.get_vip`. -/
structure VIP where
  ip : String
  vippool : String
  title : String
  cnode : String
  tenant_id : Nat
  deriving DecidableEq, Repr

/-- Load-balancing strategy tokens (`easypy.tokens` ROUNDROBIN / RANDOM);
`other` covers any unrecognized value, which `get_vip` rejects. -/
inductive LBStrategy
  | ROUNDROBIN
  | RANDOM
  | other (name : String)
  deriving DecidableEq, Repr

/-- Modelled Python keyword-call semantics for a function taking only
keyword-bindable parameters: calling with a keyword the signature does not
accept, or leaving a required parameter unbound, raises `TypeError` before
the function body runs.  Returns the `TypeError` message, or `none` when the
call is well-formed. -/
def kwargTypeError (fname : String) (accepted required kwargs : List String) :
    Option String :=
  match kwargs.find? (fun k => !(accepted.contains k)) with
  | some k => some (fname ++ "() got an unexpected keyword argument \x27" ++ k ++ "\x27")
  | none =>
    match required.find? (fun r => !(kwargs.contains r)) with
    | some r => some (fname ++ "() missing 1 required positional argument: \x27" ++ r ++ "\x27")
    | none => none

namespace VmsSession

/-- The quotas whose `path` contains `volume_id` as a substring: the result
of the server-side filter `quotas(path__contains=volume_id)` issued by
`VmsSession.get_quota` (vms_session.py line 132). -/
def quotaMatches (quotas : List Quota) (volume_id : String) : List Quota :=
  quotas.filter (fun q => strContainsSub q.path volume_id)

/-- Embedding of `VmsSession.get_quota` (vms_session.py lines 130-139): no match returns
`None`; more than one match raises `Too many quotas on <volume_id>: <names>`
(a plain `Exception`, hence `Err.exc`); otherwise the unique match is
returned. -/
def get_quota (quotas : List Quota) (volume_id : String) : Except Err (Option Quota) :=
  let qs := quotaMatches quotas volume_id
  if qs.isEmpty then .ok none
  else if 1 < qs.length then
    .error (.exc ("Too many quotas on " ++ volume_id ++ ": "
      ++ String.intercalate ", " (pySorted (qs.map (fun q => q.name)))))
  else .ok qs.head?

/-- The VIPs of `get_vip`'s filter (vms_session.py line 101): only the pool
name is compared; no field of the VIP besides `vippool` is read. -/
def vipFilter (vips : List VIP) (vip_pool_name : String) : List VIP :=
  vips.filter (fun v => v.vippool == vip_pool_name)

/-- Placeholder VIP used as the (never reached) default of a list lookup at
an index already proved in range. -/
def dummyVIP : VIP := ⟨"", "", "", "", 0⟩

/-- Embedding of `VmsSession.get_vip` (vms_session.py lines 93-118).  Inputs: the current
round-robin index (`ClassVar` starting at -1, instance-scoped after the
first call), the VIP list returned by the VMS, the pool name, the resolved
load-balancing strategy, and — for `RANDOM` — the index that
`shuffled(vips)[0]` happens to pick.  Returns the chosen ip together with
the updated round-robin index, or the raised `Exception` message.
Python's `%` on a positive modulus agrees with `Int.emod`. -/
def get_vip (idx : Int) (vips : List VIP) (vip_pool_name : String)
    (load_balancing : LBStrategy) (randPick : Nat) : Except Err (String × Int) :=
  let f := vipFilter vips vip_pool_name
  if f.isEmpty then .error (.exc ("No vips in pool " ++ vip_pool_name))
  else
    match load_balancing with
    | .ROUNDROBIN =>
      let i := (idx + 1) % (f.length : Int)
      .ok ((f.getD i.toNat dummyVIP).ip, i)
    | .RANDOM => .ok ((f.getD (randPick % f.length) dummyVIP).ip, idx)
    | .other s =>
      .error (.exc ("Invalid load_balancing mode: \x27" ++ s ++ "\x27"))

/-- The signature of `VmsSession.get_vip` (vms_session.py line 93):
`def get_vip(self, vip_pool_name: str, load_balancing: str = None)`. -/
def get_vip_params : List String := ["vip_pool_name", "load_balancing"]

/-- The parameters of `VmsSession.get_vip` that have no default. -/
def get_vip_required : List String := ["vip_pool_name"]

/-- Embedding of `VmsSession.get_by_token` (vms_session.py lines 184-189): it performs
`self.get(token)`; `RESTSession.request` then calls `token.strip("/")`
(vms_session.py line 36), so a `None` token raises `AttributeError` before
any request is made. -/
def get_by_token (token : Option String) : Except Err String :=
  match token with
  | none => .error (.exc "\x27NoneType\x27 object has no attribute \x27strip\x27")
  | some t => .ok t

end VmsSession

namespace Controller

/-- The paginated session call that `Controller.ListVolumes` issues. -/
inductive SessionPageCall
  | list_quotas (max_entries : Option Nat)
  | get_by_token (token : Option String)
  deriving DecidableEq, Repr

/-- The routing of `Controller.ListVolumes` (server.py lines 300-307): the
`"invalid-token"` check, then the choice between `list_quotas` (which pages
the `quotas` endpoint with `page_size=max_entries`, vms_session.py lines
122-124) and `get_by_token`. -/
def ListVolumes_route (starting_token : Option String) (max_entries : Option Nat) :
    Except Err SessionPageCall :=
  if starting_token == some "invalid-token" then
    .error (.abort .aborted "Invalid starting_token")
  else if pyTruthyStr starting_token then .ok (.list_quotas max_entries)
  else .ok (.get_by_token starting_token)

/-- One entry of a `ListVolumes` response. -/
structure ListEntry where
  capacity_bytes : Int
  volume_id : Option String
  quota_id_ctx : String
  deriving DecidableEq, Repr

/-- The entry construction of `Controller.ListVolumes` (server.py lines
308-320): each returned quota becomes an entry with
`capacity_bytes = quota.hard_limit` and `volume_context = {quota_id:
str(quota.id)}`.  `toVolId` is `Controller._to_volume_id` (path made
relative to the configured root export), which only affects `volume_id`. -/
def ListVolumes_entries (results : List Quota) (toVolId : String → Option String) :
    List ListEntry :=
  results.map (fun q => ⟨q.hard_limit, toVolId q.path, toString q.id⟩)

/-- The side-effecting VMS calls issued by `Controller.DeleteVolume`. -/
inductive DAction
  | dataDelete (path : String)
  | viewDeleteByPath (path : String)
  | quotaDelete (id : Nat)
  deriving DecidableEq, Repr

/-- Outcome of a successful `DeleteVolume`: the VMS calls made, in order,
and whether the volume's directory was actually removed (`false` when it was
left in place because snapshots remain). -/
structure DeleteOut where
  trace : List DAction
  dataRemoved : Bool
  deriving DecidableEq, Repr

/-- Embedding of `Controller.DeleteVolume` (server.py lines 457-478).  Oracle inputs:
the result of `get_quota(volume_id)`; the result of
`_delete_data_from_storage` (`.error msg` for a raised `OSError` rendered to
`msg`); and the snapshot list returned by `has_snapshots(quota.path)`.
When no quota matches, the RPC succeeds with no VMS call.  A data-delete
`OSError` is re-raised unless its message contains `"not empty"` and
snapshots remain on the path, in which case the directory is left in place;
in every surviving case the view is deleted by path and then the quota by
id. -/
def DeleteVolume (gq : Except Err (Option Quota)) (dataResult : Except String Unit)
    (snapshotsOnPath : List Snapshot) : Except Err DeleteOut :=
  match gq with
  | .error e => .error e
  | .ok none => .ok ⟨[], false⟩
  | .ok (some quota) =>
    let proceed (dataRemoved : Bool) : Except Err DeleteOut :=
      .ok ⟨[.dataDelete quota.path, .viewDeleteByPath quota.path,
            .quotaDelete quota.id], dataRemoved⟩
    match dataResult with
    | .ok _ => proceed true
    | .error msg =>
      if !(strContainsSub msg "not empty") then .error (.exc msg)
      else if snapshotsOnPath.isEmpty then .error (.exc msg)
      else proceed false

/-- The keywords with which `Controller.ControllerPublishVolume` calls
`get_vip` (server.py lines 511-515): `vip_pool_name`, `load_balancing` and
`tenant_id=quota.tenant_id`. -/
def publish_get_vip_kwargs : List String :=
  ["vip_pool_name", "load_balancing", "tenant_id"]

/-- A successful publish response: the publish context plus the round-robin
index after the call. -/
structure PublishOut where
  export_path : String
  nfs_server_ip : String
  newIdx : Int
  deriving DecidableEq, Repr

/-- Embedding of `Controller.ControllerPublishVolume` (server.py lines 480-522), non-mock
path, after `export_path` and `quota_path_fragment` are computed.  Oracle
inputs: the `get_quota(quota_path_fragment)` result, the VIP state, and the
strategy.  If no quota matches the path fragment the RPC aborts `NOT_FOUND`;
otherwise the handler calls `VmsSession.get_vip` with a `tenant_id` keyword
that the signature (vms_session.py line 93) does not accept, so the branch
is decided by `kwargTypeError`; the well-formed-call branch carries out the
`get_vip` selection and returns the publish context. -/
def ControllerPublishVolume (quota_path_fragment export_path : String)
    (gq : Except Err (Option Quota)) (idx : Int) (vips : List VIP)
    (vip_pool_name : String) (load_balancing : LBStrategy) (randPick : Nat) :
    Except Err PublishOut :=
  match gq with
  | .error e => .error e
  | .ok none => .error (.abort .notFound ("Unknown volume: " ++ quota_path_fragment))
  | .ok (some quota) =>
    match kwargTypeError "get_vip" VmsSession.get_vip_params
        VmsSession.get_vip_required publish_get_vip_kwargs with
    | some msg => .error (.exc msg)
    | none =>
      match VmsSession.get_vip idx vips vip_pool_name load_balancing randPick with
      | .error e => .error e
      | .ok (ip, newIdx) => .ok ⟨export_path, ip, newIdx⟩

/-- The response of `Controller.ControllerExpandVolume`: the reported
capacity, the (constant `False`) node-expansion flag, and the
`update_quota` call issued, if any (quota id and new `hard_limit`). -/
structure ExpandOut where
  capacity_bytes : Int
  node_expansion_required : Bool
  updateCall : Option (Nat × Int)
  deriving DecidableEq, Repr

/-- Embedding of `Controller.ControllerExpandVolume` (server.py lines 527-548).  Oracle
inputs: the `get_quota(volume_id)` result, `capacity_range.required_bytes`,
and the outcome of the `update_quota` PATCH (`.error msg` for a structured
`ApiError`).  A missing quota aborts `NOT_FOUND`; a request within the
current `hard_limit` answers with the existing capacity and issues no
update; otherwise the quota is patched to `required_bytes`, an `ApiError`
aborting with `OUT_OF_RANGE`.  Every success carries
`node_expansion_required = false`. -/
def ControllerExpandVolume (volume_id : String) (gq : Except Err (Option Quota))
    (required_bytes : Int) (updateResult : Except String Unit) : Except Err ExpandOut :=
  match gq with
  | .error e => .error e
  | .ok none => .error (.abort .notFound ("Not found quota with id: " ++ volume_id))
  | .ok (some quota) =>
    if required_bytes ≤ quota.hard_limit then
      .ok ⟨quota.hard_limit, false, none⟩
    else
      match updateResult with
      | .error e =>
        .error (.abort .outOfRange
          ("Failed updating quota " ++ toString quota.id ++ ": " ++ e))
      | .ok _ => .ok ⟨required_bytes, false, some (quota.id, required_bytes)⟩

/-- Outcome of the `ensure_snapshot` VMS call: either the created snapshot,
or a structured `ApiError` carrying the HTTP status and the JSON body.  The
body is modelled as a JSON object mapping field names to lists of message
strings — the shape of the VMS validation errors that the handler's
destructuring `[(k, [v])] = exc.response.json().items()` targets. -/
inductive EnsureSnapResult
  | ok (snap : Snapshot)
  | apiError (status : Nat) (body : List (String × List String))
  deriving DecidableEq, Repr

/-- The one 400 body that `CreateSnapshot` recovers from (server.py line
602). -/
def uniqueNameBody : List (String × List String) :=
  [("name", ["This field must be unique."])]

/-- Modelled from the spec: the textual rendering `str(exc)` of
`exceptions.ApiError`, whose definition (vast_csi/exceptions.py) is not
under src/.  The spec does not fix this text and no claim depends on it;
only the carried status code matters. -/
def apiErrorText (status : Nat) : String :=
  "ApiError: status " ++ toString status

/-- Embedding of `Controller.CreateSnapshot` (server.py lines 550-622), non-mock path,
after the snapshot display name is formatted.  Oracle inputs: the
`get_quota(source_volume_id)` result, the `ensure_snapshot` outcome, and the
snapshot that `get_snapshot(snapshot_name=...)` would return (read only in
the name-collision branch).  On a 400 whose body is exactly
`uniqueNameBody` the existing snapshot is fetched: a differing path aborts
`ALREADY_EXISTS`, a matching path succeeds idempotently with the existing
snapshot; any other `ApiError` aborts `INVALID_ARGUMENT`. -/
def CreateSnapshot (source_volume_id name : String) (gq : Except Err (Option Quota))
    (ensure : EnsureSnapResult) (fetched : Snapshot) : Except Err Snapshot :=
  match gq with
  | .error e => .error e
  | .ok none => .error (.abort .notFound ("Unknown volume: " ++ source_volume_id))
  | .ok (some quota) =>
    match ensure with
    | .ok snap => .ok snap
    | .apiError status body =>
      if status == 400 && body == uniqueNameBody then
        if fetched.path != quota.path then
          .error (.abort .alreadyExists
            ("Snapshot name \x27" ++ name ++ "\x27 is already taken"))
        else .ok fetched
      else .error (.abort .invalidArgument (apiErrorText status))

/-- The response of `ValidateVolumeCapabilities`: either confirmed, or a
plain response carrying the validation failure message (no abort). -/
inductive ValidateOut
  | confirmed
  | messageOnly (message : String)
  deriving DecidableEq, Repr

/-- Embedding of `Controller.ValidateVolumeCapabilities` (server.py lines 277-298).
Oracle inputs: the `get_quota(volume_id)` result and the outcome of
`_validate_capabilities` (`.error msg` when it raises `Abort`, whose message
is returned — not raised — per CSI). -/
def ValidateVolumeCapabilities (volume_id : String) (gq : Except Err (Option Quota))
    (capsCheck : Except String Unit) : Except Err ValidateOut :=
  match gq with
  | .error e => .error e
  | .ok none => .error (.abort .notFound ("Volume " ++ volume_id ++ " does not exist"))
  | .ok (some _) =>
    match capsCheck with
    | .error msg => .ok (.messageOnly msg)
    | .ok _ => .ok .confirmed

end Controller

namespace Identity

/-- The outcomes of `Identity.Probe` as seen on the wire. -/
inductive ProbeOutcome
  | ready
  | notReady
  | abort (code : StatusCode) (message : String)
  deriving DecidableEq, Repr

/-- The keywords of the `get_vip` call in `Identity.Probe`
(server.py line 228): `self.controller.vms_session.get_vip()` — no
arguments at all. -/
def probe_get_vip_kwargs : List String := []

/-- Embedding of `Identity.Probe` (server.py lines 221-233).  A configured node or mock
mode answer READY unconditionally.  With only a controller configured the
handler calls `get_vip()`; the call is checked against the signature of
`VmsSession.get_vip` by `kwargTypeError`.  A `TypeError` is not an
`ApiError`, so it escapes the `except ApiError` clause and the dispatcher
maps it to `UNKNOWN` with message `[Probe]: <text>` (server.py lines
171-174).  `vmsFetch` is the VIP-fetch outcome that would decide the
well-formed-call branch (`ApiError` text mapping to `FAILED_PRECONDITION`,
server.py lines 229-230). -/
def Probe (nodeConfigured mock_vast controllerConfigured : Bool)
    (vmsFetch : Except String Unit) : ProbeOutcome :=
  if nodeConfigured then .ready
  else if mock_vast then .ready
  else if controllerConfigured then
    match kwargTypeError "get_vip" VmsSession.get_vip_params
        VmsSession.get_vip_required probe_get_vip_kwargs with
    | some msg => .abort .unknown ("[Probe]: " ++ msg)
    | none =>
      match vmsFetch with
      | .error e => .abort .failedPrecondition e
      | .ok _ => .ready
  else .notReady

end Identity

namespace Node

/-- A mount observed at a path, as returned by `get_mount`: the backing
device and the comma-joined option string (spec section 3, MountRecord). -/
structure MountRecord where
  device : String
  opts : String
  deriving DecidableEq, Repr

/-- The mount spec composed by `NodePublishVolume` (server.py line 792):
`f"{nfs_server_ip}:{export_path}"`. -/
def mount_spec (nfs_server_ip export_path : String) : String :=
  nfs_server_ip ++ ":" ++ export_path

/-- Embedding of `"ro" in set(found_mount.opts.split(","))` (server.py lines 800-801). -/
def mountIsReadonly (m : MountRecord) : Bool :=
  (pySplit m.opts ',').contains "ro"

/-- The decision `NodePublishVolume` takes on an existing target. -/
inductive PublishDecision
  | proceedToMount
  | noop
  | abort (code : StatusCode) (message : String)
  deriving DecidableEq, Repr

/-- The idempotence check of `Node.NodePublishVolume` (server.py lines
795-814).  A target that is not a directory, or a directory with no mount,
falls through to `mkdir` + mount.  A mounted directory is compared against
the computed mount spec: a device mismatch aborts `ALREADY_EXISTS` naming
both devices, a read-only-bit mismatch aborts `ALREADY_EXISTS` naming the
observed mode, and a full match is a no-op success. -/
def publishCheck (isDirectory : Bool) (found : Option MountRecord)
    (ms : String) (readonly : Bool) : PublishDecision :=
  if !isDirectory then .proceedToMount
  else
    match found with
    | none => .proceedToMount
    | some m =>
      if m.device != ms then
        .abort .alreadyExists
          ("Volume already mounted from " ++ m.device ++ " instead of " ++ ms)
      else if mountIsReadonly m != readonly then
        .abort .alreadyExists
          ("Volume already mounted as "
            ++ (if mountIsReadonly m then "readonly" else "readwrite"))
      else .noop

/-- Outcome of one `umount` subprocess invocation. -/
inductive UmountResult
  | ok
  | err (stderr : String)
  deriving DecidableEq, Repr

/-- What the unmount loop observes at iteration `i`: whether
`get_mount(target_path)` finds a mount, and — if `umount` is then invoked —
its outcome.  The kernel state is external and may be raced, so each
iteration's observation is an independent oracle. -/
structure KernelObs where
  mounted : Bool
  umount : UmountResult
  deriving DecidableEq, Repr

/-- Result of the bounded unmount loop. -/
inductive LoopResult
  | broke (iter : Nat)
  | exhausted
  | raised (stderr : String)
  deriving DecidableEq, Repr

/-- The body of the `for i in range(unmount_attempts)` loop of
`Node.NodeUnpublishVolume` (server.py lines 837-847), from iteration `i`
with `fuel` iterations left: break when the path is not mounted; otherwise
`umount`, breaking when it fails with `"not mounted"` in stderr, re-raising
any other failure; falling off the range is the `for`-`else` case. -/
def unmountLoopFrom (env : Nat → KernelObs) : Nat → Nat → LoopResult
  | 0, _ => .exhausted
  | fuel + 1, i =>
    match (env i).mounted with
    | false => .broke i
    | true =>
      match (env i).umount with
      | .ok => unmountLoopFrom env fuel (i + 1)
      | .err s =>
        match strContainsSub s "not mounted" with
        | true => .broke i
        | false => .raised s

/-- The unmount loop run for `attempts = CONF.unmount_attempts`. -/
def unmountLoop (attempts : Nat) (env : Nat → KernelObs) : LoopResult :=
  unmountLoopFrom env attempts 0

/-- The `.vast-csi-meta` sidecar contents (spec section 3). -/
structure MetaFile where
  volume_id : String
  is_ephemeral : Bool
  deriving DecidableEq, Repr

/-- The local actions `NodeUnpublishVolume` performs after unmounting. -/
inductive UAction
  | delete_volume (volume_id : String)
  | remove_meta
  | rmdir
  deriving DecidableEq, Repr

/-- Embedding of `Node.NodeUnpublishVolume` (server.py lines 830-866).  Oracle inputs:
whether `target_path` exists, the configured attempt bound, the per-
iteration kernel observations, and the parsed sidecar (`none` when the file
is absent).  A missing path succeeds with no action.  Exhausting the loop
aborts `UNKNOWN` ("Stuck in unmount loop ..."); a re-raised umount error
surfaces as a generic exception.  After breaking out, an ephemeral sidecar
triggers the inline `Controller.DeleteVolume`, the sidecar is removed when
present, and the target is removed with `os.rmdir` — non-recursive by
construction (the code deliberately avoids `rmtree`). -/
def NodeUnpublishVolume (target_path : String) (pathExists : Bool) (attempts : Nat)
    (env : Nat → KernelObs) (meta : Option MetaFile) : Except Err (List UAction) :=
  if !pathExists then .ok []
  else
    match unmountLoop attempts env with
    | .exhausted =>
      .error (.abort .unknown
        ("Stuck in unmount loop of " ++ target_path ++ " too many times ("
          ++ toString attempts ++ ")"))
    | .raised s => .error (.exc s)
    | .broke _ =>
      let dv := match meta with
        | some m => if m.is_ephemeral then [UAction.delete_volume m.volume_id] else []
        | none => []
      let rmMeta := if meta.isSome then [UAction.remove_meta] else []
      .ok (dv ++ rmMeta ++ [UAction.rmdir])

end Node

namespace Instrumented

/-- The missing-field computation of `Instrumented.logged` (server.py lines
124-148): the handler parameters without a default (minus `self`, `request`
and `context`) that are absent from the request's present fields, as the
sorted list that the error message joins.  `List.dedup` realizes the Python
set semantics; parameter names of a signature are unique anyway. -/
def missingFields (required present : List String) : List String :=
  pySorted ((required.filter
    (fun f => f != "request" && f != "context" && !(present.contains f))).dedup)

/-- The wrapper `Instrumented.logged` puts around every RPC handler
(server.py lines 132-150), reduced to its validation role: when any
required field is missing the RPC aborts `INVALID_ARGUMENT` with
`Missing required fields: <sorted list>` and the handler is never invoked;
otherwise the handler runs on the present fields. -/
def logged {α : Type} (required present : List String)
    (handler : List String → Except Err α) : Except Err α :=
  let missing := missingFields required present
  if !missing.isEmpty then
    .error (.abort .invalidArgument
      ("Missing required fields: " ++ String.intercalate ", " missing))
  else handler present

end Instrumented

/-! Concrete fixtures used by the witness theorems below. -/

/-- A kernel-observation sequence whose first iteration is mounted (umount
succeeds) and which is unmounted from the second iteration on. -/
def envOnce : Nat → Node.KernelObs :=
  fun i => if i == 0 then ⟨true, .ok⟩ else ⟨false, .ok⟩

/-- A kernel-observation sequence that is mounted forever and whose umounts
all succeed without effect (a hung NFS mount). -/
def envStuck : Nat → Node.KernelObs :=
  fun _ => ⟨true, .ok⟩

/-! Helper lemmas (shared; none is a claim's theorem). -/

theorem unmountLoopFrom_broke_bounds (env : Nat → Node.KernelObs) :
    ∀ fuel i j, Node.unmountLoopFrom env fuel i = .broke j → i ≤ j ∧ j < i + fuel := by
  intro fuel
  induction fuel with
  | zero => intro i j h; simp [Node.unmountLoopFrom] at h
  | succ n ih =>
    intro i j h
    unfold Node.unmountLoopFrom at h
    cases hm : (env i).mounted with
    | false =>
      simp only [hm] at h
      injection h with hj
      omega
    | true =>
      simp only [hm] at h
      cases hu : (env i).umount with
      | ok =>
        simp only [hu] at h
        have := ih (i + 1) j h
        omega
      | err s =>
        simp only [hu] at h
        cases hc : strContainsSub s "not mounted" with
        | true =>
          simp only [hc] at h
          injection h with hj
          omega
        | false =>
          simp only [hc] at h
          exact Node.LoopResult.noConfusion h

theorem unmountLoopFrom_broke_reason (env : Nat → Node.KernelObs) :
    ∀ fuel i j, Node.unmountLoopFrom env fuel i = .broke j →
      (env j).mounted = false
        ∨ ∃ s, (env j).umount = .err s ∧ strContainsSub s "not mounted" = true := by
  intro fuel
  induction fuel with
  | zero => intro i j h; simp [Node.unmountLoopFrom] at h
  | succ n ih =>
    intro i j h
    unfold Node.unmountLoopFrom at h
    cases hm : (env i).mounted with
    | false =>
      simp only [hm] at h
      injection h with hj
      exact Or.inl (hj ▸ hm)
    | true =>
      simp only [hm] at h
      cases hu : (env i).umount with
      | ok =>
        simp only [hu] at h
        exact ih (i + 1) j h
      | err s =>
        simp only [hu] at h
        cases hc : strContainsSub s "not mounted" with
        | true =>
          simp only [hc] at h
          injection h with hj
          exact Or.inr ⟨s, hj ▸ hu, hc⟩
        | false =>
          simp only [hc] at h
          exact Node.LoopResult.noConfusion h

theorem unmountLoopFrom_exhausted (env : Nat → Node.KernelObs) :
    ∀ fuel i, (∀ k, i ≤ k → k < i + fuel → (env k).mounted = true ∧ (env k).umount = .ok) →
      Node.unmountLoopFrom env fuel i = .exhausted := by
  intro fuel
  induction fuel with
  | zero => intro i _; rfl
  | succ n ih =>
    intro i h
    have hi := h i (Nat.le_refl i) (by omega)
    unfold Node.unmountLoopFrom
    rw [hi.1, hi.2]
    exact ih (i + 1) (fun k hk1 hk2 => h k (by omega) (by omega))

theorem charsLt_trichotomy : ∀ as bs : List Char,
    as = bs ∨ charsLt as bs = true ∨ charsLt bs as = true := by
  intro as
  induction as with
  | nil =>
    intro bs
    cases bs with
    | nil => exact Or.inl rfl
    | cons b bs => exact Or.inr (Or.inl rfl)
  | cons a as ih =>
    intro bs
    cases bs with
    | nil => exact Or.inr (Or.inr rfl)
    | cons b bs =>
      rcases lt_trichotomy a b with hab | hab | hab
      · exact Or.inr (Or.inl (by simp [charsLt, hab]))
      · subst hab
        rcases ih bs with h | h | h
        · exact Or.inl (by rw [h])
        · exact Or.inr (Or.inl (by simp [charsLt, h]))
        · exact Or.inr (Or.inr (by simp [charsLt, h]))
      · exact Or.inr (Or.inr (by simp [charsLt, hab]))

theorem charsLt_trans : ∀ as bs cs : List Char,
    charsLt as bs = true → charsLt bs cs = true → charsLt as cs = true := by
  intro as
  induction as with
  | nil =>
    intro bs cs h1 h2
    cases bs with
    | nil => exact h2
    | cons b bs =>
      cases cs with
      | nil => simp [charsLt] at h2
      | cons c cs => rfl
  | cons a as ih =>
    intro bs cs h1 h2
    cases bs with
    | nil => simp [charsLt] at h1
    | cons b bs =>
      cases cs with
      | nil => simp [charsLt] at h2
      | cons c cs =>
        simp only [charsLt, Bool.or_eq_true, Bool.and_eq_true, decide_eq_true_eq,
          beq_iff_eq] at h1 h2 ⊢
        rcases h1 with h1 | ⟨hab, h1⟩
        · rcases h2 with h2 | ⟨hbc, h2⟩
          · exact Or.inl (lt_trans h1 h2)
          · exact Or.inl (hbc ▸ h1)
        · subst hab
          rcases h2 with h2 | ⟨hbc, h2⟩
          · exact Or.inl h2
          · subst hbc
            exact Or.inr ⟨rfl, ih bs cs h1 h2⟩

theorem pyStrLe_total (a b : String) : pyStrLe a b = true ∨ pyStrLe b a = true := by
  rcases charsLt_trichotomy a.data b.data with h | h | h
  · have hab : a = b := by
      cases a
      cases b
      exact congrArg String.mk h
    exact Or.inl (by simp [pyStrLe, hab])
  · exact Or.inl (by simp [pyStrLe, h])
  · exact Or.inr (by simp [pyStrLe, h])

theorem pyStrLe_trans (a b c : String) :
    pyStrLe a b = true → pyStrLe b c = true → pyStrLe a c = true := by
  intro h1 h2
  simp only [pyStrLe, Bool.or_eq_true, beq_iff_eq] at h1 h2 ⊢
  rcases h1 with h1 | h1
  · subst h1
    exact h2
  · rcases h2 with h2 | h2
    · subst h2
      exact Or.inr h1
    · exact Or.inr (charsLt_trans _ _ _ h1 h2)

theorem missingFields_mem (required present : List String) (f : String) :
    f ∈ Instrumented.missingFields required present
      ↔ f ∈ required ∧ f ≠ "request" ∧ f ≠ "context" ∧ f ∉ present := by
  unfold Instrumented.missingFields pySorted
  rw [(List.perm_insertionSort _ _).mem_iff, List.mem_dedup, List.mem_filter]
  simp [and_assoc]

theorem missingFields_sorted (required present : List String) :
    List.Sorted (fun a b => pyStrLe a b = true)
      (Instrumented.missingFields required present) := by
  letI : IsTotal String (fun a b => pyStrLe a b = true) := ⟨pyStrLe_total⟩
  letI : IsTrans String (fun a b => pyStrLe a b = true) := ⟨fun a b c => pyStrLe_trans a b c⟩
  exact List.sorted_insertionSort _ _

/-! Claim theorems and witnesses. -/

/-- C1: for every ListVolumes call, `starting_token == "invalid-token"`
aborts ABORTED, and each entry carries `capacity_bytes = quota.hard_limit`
and `volume_context = {quota_id}`; but the paging branches are swapped in
the code: with no starting_token the handler calls `get_by_token(None)`
(which raises `AttributeError` on `None.strip`), and with a starting_token
it calls `list_quotas(max_entries)` instead of following the token. -/
theorem claim_C1_list_volumes :
    Controller.ListVolumes_route (some "invalid-token") (some 5)
      = .error (.abort .aborted "Invalid starting_token")
    ∧ Controller.ListVolumes_route none (some 5) = .ok (.get_by_token none)
    ∧ Controller.ListVolumes_route (some "https://vms/api/quotas/?page=2") (some 5)
      = .ok (.list_quotas (some 5))
    ∧ VmsSession.get_by_token none
      = .error (.exc "\x27NoneType\x27 object has no attribute \x27strip\x27")
    ∧ Controller.ListVolumes_entries [⟨42, "q1", "/k8s/pvc-abc", 1073741824, 1⟩]
        (fun _ => some "pvc-abc")
      = [⟨1073741824, some "pvc-abc", "42"⟩] :=
  ⟨rfl, rfl, rfl, rfl, rfl⟩

/-- C2: DeleteVolume with no matching quota succeeds with no side effect;
with a quota, the calls happen in the order data-delete, view-delete (by
path), quota-delete (by id); a "not empty" data-delete failure with
snapshots remaining leaves the directory in place and still deletes the
view and the quota; without snapshots, or with any other OSError, the error
is re-raised. -/
theorem claim_C2_delete_volume :
    (∀ d s, Controller.DeleteVolume (.ok none) d s = .ok ⟨[], false⟩)
    ∧ (∀ q s, Controller.DeleteVolume (.ok (some q)) (.ok ()) s
        = .ok ⟨[.dataDelete q.path, .viewDeleteByPath q.path, .quotaDelete q.id], true⟩)
    ∧ (∀ q msg s, strContainsSub msg "not empty" = true → s ≠ [] →
        Controller.DeleteVolume (.ok (some q)) (.error msg) s
        = .ok ⟨[.dataDelete q.path, .viewDeleteByPath q.path, .quotaDelete q.id], false⟩)
    ∧ (∀ q msg, strContainsSub msg "not empty" = true →
        Controller.DeleteVolume (.ok (some q)) (.error msg) [] = .error (.exc msg))
    ∧ (∀ q msg s, strContainsSub msg "not empty" = false →
        Controller.DeleteVolume (.ok (some q)) (.error msg) s = .error (.exc msg)) := by
  refine ⟨fun d s => rfl, fun q s => rfl, ?_, ?_, ?_⟩
  · intro q msg s h hs
    cases s with
    | nil => exact absurd rfl hs
    | cons a t => simp [Controller.DeleteVolume, h]
  · intro q msg h
    simp [Controller.DeleteVolume, h]
  · intro q msg s h
    simp [Controller.DeleteVolume, h]

/-- Witness for C2 at concrete inputs: a quota on `/k8s/pvc-abc` whose data
delete fails with "Directory not empty" while one snapshot remains — the
view and quota are still deleted and the directory is kept; and the
no-quota case is an idempotent no-op. -/
theorem claim_C2_delete_volume_witness :
    Controller.DeleteVolume (.ok (some ⟨42, "n", "/k8s/pvc-abc", 1073741824, 1⟩))
        (.error "[Errno 39] Directory not empty") [⟨7, "/k8s/pvc-abc", "t"⟩]
      = .ok ⟨[.dataDelete "/k8s/pvc-abc", .viewDeleteByPath "/k8s/pvc-abc",
              .quotaDelete 42], false⟩
    ∧ Controller.DeleteVolume (.ok none) (.ok ()) [] = .ok ⟨[], false⟩ :=
  ⟨claim_C2_delete_volume.2.2.1 ⟨42, "n", "/k8s/pvc-abc", 1073741824, 1⟩
      "[Errno 39] Directory not empty" [⟨7, "/k8s/pvc-abc", "t"⟩] (by decide) (by decide),
   claim_C2_delete_volume.1 (.ok ()) []⟩

/-- C10: `get_quota` returns None when no quota path contains the volume id,
the unique match when exactly one does, and raises
`Too many quotas on <volume_id>` when several do; every modelled RPC that
looks up a quota propagates that error instead of picking a quota. -/
theorem claim_C10_get_quota :
    (∀ quotas vid, VmsSession.quotaMatches quotas vid = [] →
        VmsSession.get_quota quotas vid = .ok none)
    ∧ (∀ quotas vid q, VmsSession.quotaMatches quotas vid = [q] →
        VmsSession.get_quota quotas vid = .ok (some q))
    ∧ (∀ quotas vid, 2 ≤ (VmsSession.quotaMatches quotas vid).length →
        VmsSession.get_quota quotas vid
        = .error (.exc ("Too many quotas on " ++ vid ++ ": "
            ++ String.intercalate ", "
              (pySorted ((VmsSession.quotaMatches quotas vid).map (fun q => q.name))))))
    ∧ (∀ quotas vid, VmsSession.quotaMatches quotas vid = []
        ↔ ∀ q ∈ quotas, strContainsSub q.path vid = false)
    ∧ (∀ e d s, Controller.DeleteVolume (.error e) d s = .error e)
    ∧ (∀ e qf ep i vs vp lb rp,
        Controller.ControllerPublishVolume qf ep (.error e) i vs vp lb rp = .error e)
    ∧ (∀ e vid req upd, Controller.ControllerExpandVolume vid (.error e) req upd = .error e)
    ∧ (∀ e svid nm en f, Controller.CreateSnapshot svid nm (.error e) en f = .error e)
    ∧ (∀ e vid cc, Controller.ValidateVolumeCapabilities vid (.error e) cc = .error e) := by
  refine ⟨?_, ?_, ?_, ?_, fun e d s => rfl, fun e qf ep i vs vp lb rp => rfl,
    fun e vid req upd => rfl, fun e svid nm en f => rfl, fun e vid cc => rfl⟩
  · intro quotas vid h
    simp [VmsSession.get_quota, h]
  · intro quotas vid q h
    simp [VmsSession.get_quota, h]
  · intro quotas vid h
    have hne : (VmsSession.quotaMatches quotas vid).isEmpty = false := by
      cases hm : VmsSession.quotaMatches quotas vid with
      | nil => rw [hm] at h; simp at h
      | cons a t => rfl
    have hlt : 1 < (VmsSession.quotaMatches quotas vid).length := by omega
    simp [VmsSession.get_quota, hne, hlt]
  · intro quotas vid
    simp [VmsSession.quotaMatches, List.filter_eq_nil_iff]

/-- Witness for C10 at concrete inputs: `"pvc-1"` is a substring of both
`/k8s/pvc-1` and `/k8s/pvc-12`, so `get_quota` raises instead of picking
one; a single match is returned; no match returns None. -/
theorem claim_C10_get_quota_witness :
    VmsSession.get_quota
        [⟨1, "a", "/k8s/pvc-1", 5, 1⟩, ⟨2, "b", "/k8s/pvc-12", 5, 1⟩] "pvc-1"
      = .error (.exc "Too many quotas on pvc-1: a, b")
    ∧ VmsSession.get_quota [⟨1, "a", "/k8s/pvc-1", 5, 1⟩] "pvc-1"
      = .ok (some ⟨1, "a", "/k8s/pvc-1", 5, 1⟩)
    ∧ VmsSession.get_quota [⟨1, "a", "/k8s/pvc-1", 5, 1⟩] "pvc-zz" = .ok none := by
  refine ⟨?_, claim_C10_get_quota.2.1 [⟨1, "a", "/k8s/pvc-1", 5, 1⟩] "pvc-1"
      ⟨1, "a", "/k8s/pvc-1", 5, 1⟩ (by decide),
    claim_C10_get_quota.1 [⟨1, "a", "/k8s/pvc-1", 5, 1⟩] "pvc-zz" (by decide)⟩
  rw [claim_C10_get_quota.2.2.1
      [⟨1, "a", "/k8s/pvc-1", 5, 1⟩, ⟨2, "b", "/k8s/pvc-12", 5, 1⟩] "pvc-1" (by decide)]
  simp only [Except.error.injEq, Err.exc.injEq]
  decide

/-- C3: get_vip filters the VIPs only by pool name — the tenant is never
consulted (the single VIP below belongs to tenant 7 yet is returned for a
quota of tenant 5) — and the claim's signature
`get_vip(vip_pool_name, load_balancing, tenant_id)` does not exist: the
`tenant_id` keyword passed by ControllerPublishVolume (server.py lines
511-515) is rejected by the signature at vms_session.py line 93, so the
publish call raises `TypeError` instead of selecting a VIP.  The empty-pool
error and the round-robin advance do behave as claimed. -/
theorem claim_C3_get_vip :
    kwargTypeError "get_vip" VmsSession.get_vip_params VmsSession.get_vip_required
        Controller.publish_get_vip_kwargs
      = some "get_vip() got an unexpected keyword argument \x27tenant_id\x27"
    ∧ Controller.ControllerPublishVolume "pvc-abc" "/k8s/pvc-abc"
        (.ok (some ⟨42, "n", "/k8s/pvc-abc", 1073741824, 5⟩)) (-1)
        [⟨"10.0.0.5", "vp1", "t1", "cnode-1", 7⟩] "vp1" .ROUNDROBIN 0
      = .error (.exc "get_vip() got an unexpected keyword argument \x27tenant_id\x27")
    ∧ VmsSession.get_vip (-1) [⟨"10.0.0.5", "vp1", "t1", "cnode-1", 7⟩] "vp1" .ROUNDROBIN 0
      = .ok ("10.0.0.5", 0)
    ∧ VmsSession.vipFilter [⟨"10.0.0.5", "vp1", "t1", "cnode-1", 7⟩] "vp1"
      = [⟨"10.0.0.5", "vp1", "t1", "cnode-1", 7⟩]
    ∧ VmsSession.get_vip (-1) [⟨"10.0.0.5", "vp1", "t1", "cnode-1", 7⟩] "vp2" .ROUNDROBIN 0
      = .error (.exc "No vips in pool vp2")
    ∧ VmsSession.get_vip 0
        [⟨"10.0.0.5", "vp1", "t1", "cnode-1", 7⟩, ⟨"10.0.0.6", "vp1", "t2", "cnode-2", 7⟩]
        "vp1" .ROUNDROBIN 0
      = .ok ("10.0.0.6", 1)
    ∧ VmsSession.get_vip 1
        [⟨"10.0.0.5", "vp1", "t1", "cnode-1", 7⟩, ⟨"10.0.0.6", "vp1", "t2", "cnode-2", 7⟩]
        "vp1" .ROUNDROBIN 0
      = .ok ("10.0.0.5", 0) :=
  ⟨rfl, rfl, rfl, rfl, rfl, rfl, rfl⟩

/-- C4: on a VMS 400 whose body is exactly
`{"name": ["This field must be unique."]}`, CreateSnapshot fetches the
existing snapshot and succeeds idempotently when its path matches the
source quota's path, aborts ALREADY_EXISTS when it differs; a 400 with any
other (field -> messages) body aborts INVALID_ARGUMENT. -/
theorem claim_C4_create_snapshot :
    (∀ svid nm (q : Quota) (f : Snapshot) body, body = Controller.uniqueNameBody →
        f.path = q.path →
        Controller.CreateSnapshot svid nm (.ok (some q)) (.apiError 400 body) f = .ok f)
    ∧ (∀ svid nm (q : Quota) (f : Snapshot), f.path ≠ q.path →
        Controller.CreateSnapshot svid nm (.ok (some q))
            (.apiError 400 Controller.uniqueNameBody) f
        = .error (.abort .alreadyExists
            ("Snapshot name \x27" ++ nm ++ "\x27 is already taken")))
    ∧ (∀ svid nm (q : Quota) (f : Snapshot) body, body ≠ Controller.uniqueNameBody →
        Controller.CreateSnapshot svid nm (.ok (some q)) (.apiError 400 body) f
        = .error (.abort .invalidArgument (Controller.apiErrorText 400))) := by
  refine ⟨?_, ?_, ?_⟩
  · intro svid nm q f body hb hp
    subst hb
    simp [Controller.CreateSnapshot, hp]
  · intro svid nm q f hp
    simp [Controller.CreateSnapshot, hp]
  · intro svid nm q f body hb
    simp [Controller.CreateSnapshot, hb]

/-- Witness for C4 at concrete inputs: the unique-name 400 body with a
matching path succeeds with the existing snapshot; with a differing path it
aborts ALREADY_EXISTS; a different 400 body aborts INVALID_ARGUMENT. -/
theorem claim_C4_create_snapshot_witness :
    Controller.CreateSnapshot "pvc-x" "snap-1" (.ok (some ⟨42, "n", "/k8s/pvc-x", 10, 1⟩))
        (.apiError 400 [("name", ["This field must be unique."])])
        ⟨7, "/k8s/pvc-x", "2024-01-01"⟩
      = .ok ⟨7, "/k8s/pvc-x", "2024-01-01"⟩
    ∧ Controller.CreateSnapshot "pvc-y" "snap-1" (.ok (some ⟨43, "n", "/k8s/pvc-y", 10, 1⟩))
        (.apiError 400 [("name", ["This field must be unique."])])
        ⟨7, "/k8s/pvc-x", "2024-01-01"⟩
      = .error (.abort .alreadyExists "Snapshot name \x27snap-1\x27 is already taken")
    ∧ Controller.CreateSnapshot "pvc-x" "snap-1" (.ok (some ⟨42, "n", "/k8s/pvc-x", 10, 1⟩))
        (.apiError 400 [("hard_limit", ["Invalid value."])]) ⟨7, "/k8s/pvc-x", "2024-01-01"⟩
      = .error (.abort .invalidArgument (Controller.apiErrorText 400)) := by
  refine ⟨?_, ?_, ?_⟩
  · exact claim_C4_create_snapshot.1 "pvc-x" "snap-1" ⟨42, "n", "/k8s/pvc-x", 10, 1⟩
      ⟨7, "/k8s/pvc-x", "2024-01-01"⟩ [("name", ["This field must be unique."])]
      (by decide) (by decide)
  · exact claim_C4_create_snapshot.2.1 "pvc-y" "snap-1" ⟨43, "n", "/k8s/pvc-y", 10, 1⟩
      ⟨7, "/k8s/pvc-x", "2024-01-01"⟩ (by decide)
  · exact claim_C4_create_snapshot.2.2 "pvc-x" "snap-1" ⟨42, "n", "/k8s/pvc-x", 10, 1⟩
      ⟨7, "/k8s/pvc-x", "2024-01-01"⟩ [("hard_limit", ["Invalid value."])] (by decide)

/-- C5: NodePublishVolume on a target directory with an existing mount is a
no-op success when the mount's device equals the computed mount spec
(`<ip>:<export_path>`) and its read-only bit equals the readonly flag; a
device mismatch or a read-only mismatch aborts ALREADY_EXISTS with the
observed reason. -/
theorem claim_C5_node_publish_idempotent :
    (∀ (m : Node.MountRecord) ip ep ro, m.device = Node.mount_spec ip ep →
        Node.mountIsReadonly m = ro →
        Node.publishCheck true (some m) (Node.mount_spec ip ep) ro = .noop)
    ∧ (∀ (m : Node.MountRecord) ms ro, m.device ≠ ms →
        Node.publishCheck true (some m) ms ro
        = .abort .alreadyExists
            ("Volume already mounted from " ++ m.device ++ " instead of " ++ ms))
    ∧ (∀ (m : Node.MountRecord) ms ro, m.device = ms → Node.mountIsReadonly m ≠ ro →
        Node.publishCheck true (some m) ms ro
        = .abort .alreadyExists
            ("Volume already mounted as "
              ++ (if Node.mountIsReadonly m then "readonly" else "readwrite"))) := by
  refine ⟨?_, ?_, ?_⟩
  · intro m ip ep ro hd hro
    simp [Node.publishCheck, hd, hro]
  · intro m ms ro hd
    simp [Node.publishCheck, hd]
  · intro m ms ro hd hro
    simp [Node.publishCheck, hd, hro]

/-- Witness for C5 at concrete inputs: same device and same read-write mode
is a no-op; a different device aborts; same device mounted read-only while
readonly=false aborts. -/
theorem claim_C5_node_publish_idempotent_witness :
    Node.publishCheck true (some ⟨"10.0.0.5:/k8s/pvc-abc", "rw,vers=3"⟩)
        (Node.mount_spec "10.0.0.5" "/k8s/pvc-abc") false = .noop
    ∧ Node.publishCheck true (some ⟨"10.0.0.9:/k8s/other", "rw"⟩)
        (Node.mount_spec "10.0.0.5" "/k8s/pvc-abc") false
      = .abort .alreadyExists
          ("Volume already mounted from 10.0.0.9:/k8s/other instead of "
            ++ Node.mount_spec "10.0.0.5" "/k8s/pvc-abc")
    ∧ Node.publishCheck true (some ⟨"10.0.0.5:/k8s/pvc-abc", "ro,vers=3"⟩)
        (Node.mount_spec "10.0.0.5" "/k8s/pvc-abc") false
      = .abort .alreadyExists "Volume already mounted as readonly" := by
  refine ⟨?_, ?_, ?_⟩
  · exact claim_C5_node_publish_idempotent.1 ⟨"10.0.0.5:/k8s/pvc-abc", "rw,vers=3"⟩
      "10.0.0.5" "/k8s/pvc-abc" false (by decide) (by decide)
  · exact claim_C5_node_publish_idempotent.2.1 ⟨"10.0.0.9:/k8s/other", "rw"⟩
      (Node.mount_spec "10.0.0.5" "/k8s/pvc-abc") false (by decide)
  · exact claim_C5_node_publish_idempotent.2.2 ⟨"10.0.0.5:/k8s/pvc-abc", "ro,vers=3"⟩
      (Node.mount_spec "10.0.0.5" "/k8s/pvc-abc") false (by decide) (by decide)

/-- C6: ControllerExpandVolume aborts NOT_FOUND on a missing quota; a
request within the current hard_limit answers the existing capacity and
issues no update; a larger request patches the quota to required_bytes and
answers it, an ApiError during the patch aborting OUT_OF_RANGE; every
successful response has node_expansion_required = false. -/
theorem claim_C6_expand_volume :
    (∀ vid req upd, Controller.ControllerExpandVolume vid (.ok none) req upd
      = .error (.abort .notFound ("Not found quota with id: " ++ vid)))
    ∧ (∀ vid (q : Quota) req upd, req ≤ q.hard_limit →
        Controller.ControllerExpandVolume vid (.ok (some q)) req upd
        = .ok ⟨q.hard_limit, false, none⟩)
    ∧ (∀ vid (q : Quota) req e, q.hard_limit < req →
        Controller.ControllerExpandVolume vid (.ok (some q)) req (.error e)
        = .error (.abort .outOfRange
            ("Failed updating quota " ++ toString q.id ++ ": " ++ e)))
    ∧ (∀ vid (q : Quota) req, q.hard_limit < req →
        Controller.ControllerExpandVolume vid (.ok (some q)) req (.ok ())
        = .ok ⟨req, false, some (q.id, req)⟩)
    ∧ (∀ vid gq req upd out, Controller.ControllerExpandVolume vid gq req upd = .ok out →
        out.node_expansion_required = false) := by
  refine ⟨fun vid req upd => rfl, ?_, ?_, ?_, ?_⟩
  · intro vid q req upd hle
    simp [Controller.ControllerExpandVolume, hle]
  · intro vid q req e hlt
    simp [Controller.ControllerExpandVolume, not_le.mpr hlt]
  · intro vid q req hlt
    simp [Controller.ControllerExpandVolume, not_le.mpr hlt]
  · intro vid gq req upd out h
    cases gq with
    | error e => exact absurd h (by simp [Controller.ControllerExpandVolume])
    | ok oq =>
      cases oq with
      | none => exact absurd h (by simp [Controller.ControllerExpandVolume])
      | some q =>
        by_cases hle : req ≤ q.hard_limit
        · simp [Controller.ControllerExpandVolume, hle] at h
          rw [← h]
        · cases upd with
          | error e =>
            exact absurd h (by simp [Controller.ControllerExpandVolume, hle])
          | ok u =>
            simp [Controller.ControllerExpandVolume, hle] at h
            rw [← h]

/-- Witness for C6 at concrete inputs: a quota with hard_limit 1Gi answers
1Gi unchanged for a 512Mi request; a 2Gi request with a failing patch
aborts OUT_OF_RANGE; a 2Gi request with a successful patch answers 2Gi and
patches quota 42; both successes report node_expansion_required = false. -/
theorem claim_C6_expand_volume_witness :
    Controller.ControllerExpandVolume "pvc-abc"
        (.ok (some ⟨42, "n", "/k8s/pvc-abc", 1073741824, 1⟩)) 536870912 (.ok ())
      = .ok ⟨1073741824, false, none⟩
    ∧ Controller.ControllerExpandVolume "pvc-abc"
        (.ok (some ⟨42, "n", "/k8s/pvc-abc", 1073741824, 1⟩)) 2147483648 (.error "denied")
      = .error (.abort .outOfRange "Failed updating quota 42: denied")
    ∧ Controller.ControllerExpandVolume "pvc-abc"
        (.ok (some ⟨42, "n", "/k8s/pvc-abc", 1073741824, 1⟩)) 2147483648 (.ok ())
      = .ok ⟨2147483648, false, some (42, 2147483648)⟩
    ∧ Controller.ControllerExpandVolume "pvc-gone" (.ok none) 2147483648 (.ok ())
      = .error (.abort .notFound "Not found quota with id: pvc-gone")
    ∧ (⟨1073741824, false, none⟩ : Controller.ExpandOut).node_expansion_required = false := by
  refine ⟨?_, ?_, ?_, ?_, ?_⟩
  · exact claim_C6_expand_volume.2.1 "pvc-abc" ⟨42, "n", "/k8s/pvc-abc", 1073741824, 1⟩
      536870912 (.ok ()) (by decide)
  · exact claim_C6_expand_volume.2.2.1 "pvc-abc"
      ⟨42, "n", "/k8s/pvc-abc", 1073741824, 1⟩ 2147483648 "denied" (by decide)
  · exact claim_C6_expand_volume.2.2.2.1 "pvc-abc" ⟨42, "n", "/k8s/pvc-abc", 1073741824, 1⟩
      2147483648 (by decide)
  · exact claim_C6_expand_volume.1 "pvc-gone" 2147483648 (.ok ())
  · exact claim_C6_expand_volume.2.2.2.2 "pvc-abc"
      (.ok (some ⟨42, "n", "/k8s/pvc-abc", 1073741824, 1⟩)) 536870912 (.ok ())
      ⟨1073741824, false, none⟩
      (claim_C6_expand_volume.2.1 "pvc-abc" ⟨42, "n", "/k8s/pvc-abc", 1073741824, 1⟩
        536870912 (.ok ()) (by decide))

/-- C7: Probe is READY unconditionally with a Node configured or in mock
mode; but in controller-only mode the handler's zero-argument call
`get_vip()` (server.py line 228) cannot bind the required `vip_pool_name`
parameter of `VmsSession.get_vip` (vms_session.py line 93): it raises
`TypeError`, which is not an `ApiError`, so the dispatcher answers UNKNOWN
— never READY and never FAILED_PRECONDITION — whatever the VMS state. -/
theorem claim_C7_probe :
    (∀ m c vf, Identity.Probe true m c vf = .ready)
    ∧ (∀ c vf, Identity.Probe false true c vf = .ready)
    ∧ (∀ vf, Identity.Probe false false true vf
        = .abort .unknown
            "[Probe]: get_vip() missing 1 required positional argument: \x27vip_pool_name\x27")
    ∧ Identity.Probe false false false (.ok ()) = .notReady :=
  ⟨fun m c vf => rfl, fun c vf => rfl, fun vf => rfl, rfl⟩

/-- C8: NodeUnpublishVolume succeeds without action on a missing path; the
unmount loop runs at most `unmount_attempts` iterations and breaks only
when the path is observed unmounted or `umount` reports "not mounted";
when every attempt finds the path mounted and unmountable the RPC aborts
UNKNOWN ("Stuck in unmount loop ..."); after breaking out, an ephemeral
sidecar triggers the inline Controller DeleteVolume, the sidecar is
removed, and the target is removed with a non-recursive rmdir. -/
theorem claim_C8_node_unpublish :
    (∀ t attempts env meta, Node.NodeUnpublishVolume t false attempts env meta = .ok [])
    ∧ (∀ attempts env j, Node.unmountLoop attempts env = .broke j → j < attempts)
    ∧ (∀ attempts env j, Node.unmountLoop attempts env = .broke j →
        (env j).mounted = false
          ∨ ∃ s, (env j).umount = .err s ∧ strContainsSub s "not mounted" = true)
    ∧ (∀ t attempts env meta,
        (∀ k, k < attempts → (env k).mounted = true ∧ (env k).umount = .ok) →
        Node.NodeUnpublishVolume t true attempts env meta
        = .error (.abort .unknown
            ("Stuck in unmount loop of " ++ t ++ " too many times ("
              ++ toString attempts ++ ")")))
    ∧ (∀ t attempts env j (m : Node.MetaFile), Node.unmountLoop attempts env = .broke j →
        Node.NodeUnpublishVolume t true attempts env (some m)
        = .ok ((if m.is_ephemeral then [.delete_volume m.volume_id] else [])
            ++ [.remove_meta, .rmdir]))
    ∧ (∀ t attempts env j, Node.unmountLoop attempts env = .broke j →
        Node.NodeUnpublishVolume t true attempts env none = .ok [.rmdir]) := by
  refine ⟨fun t attempts env meta => rfl, ?_, ?_, ?_, ?_, ?_⟩
  · intro attempts env j h
    have := unmountLoopFrom_broke_bounds env attempts 0 j h
    omega
  · intro attempts env j h
    exact unmountLoopFrom_broke_reason env attempts 0 j h
  · intro t attempts env meta h
    have hex : Node.unmountLoop attempts env = .exhausted :=
      unmountLoopFrom_exhausted env attempts 0 (fun k hk1 hk2 => h k (by omega))
    simp [Node.NodeUnpublishVolume, hex]
  · intro t attempts env j m h
    cases hm : m.is_ephemeral with
    | true => simp [Node.NodeUnpublishVolume, h, hm]
    | false => simp [Node.NodeUnpublishVolume, h, hm]
  · intro t attempts env j h
    simp [Node.NodeUnpublishVolume, h]

/-- Witness for C8 at concrete inputs: a path mounted once (`envOnce`)
unmounts within 3 attempts, breaking at iteration 1 which indeed observes
the path unmounted; a permanently mounted path (`envStuck`) with 2 attempts
aborts UNKNOWN; after unmounting, an ephemeral sidecar produces the inline
delete followed by sidecar removal and rmdir, a non-ephemeral sidecar only
removal and rmdir, and a missing sidecar only rmdir; a missing path is a
no-op. -/
theorem claim_C8_node_unpublish_witness :
    Node.NodeUnpublishVolume "/var/target" false 3 envOnce none = .ok []
    ∧ 1 < 3
    ∧ ((envOnce 1).mounted = false
        ∨ ∃ s, (envOnce 1).umount = .err s ∧ strContainsSub s "not mounted" = true)
    ∧ Node.NodeUnpublishVolume "/var/target" true 2 envStuck none
      = .error (.abort .unknown
          "Stuck in unmount loop of /var/target too many times (2)")
    ∧ Node.NodeUnpublishVolume "/var/target" true 3 envOnce (some ⟨"pvc-eph", true⟩)
      = .ok [.delete_volume "pvc-eph", .remove_meta, .rmdir]
    ∧ Node.NodeUnpublishVolume "/var/target" true 3 envOnce (some ⟨"pvc-reg", false⟩)
      = .ok [.remove_meta, .rmdir]
    ∧ Node.NodeUnpublishVolume "/var/target" true 3 envOnce none = .ok [.rmdir] := by
  refine ⟨claim_C8_node_unpublish.1 "/var/target" 3 envOnce none, ?_, ?_, ?_, ?_, ?_, ?_⟩
  · exact claim_C8_node_unpublish.2.1 3 envOnce 1 (by rfl)
  · exact claim_C8_node_unpublish.2.2.1 3 envOnce 1 (by rfl)
  · exact claim_C8_node_unpublish.2.2.2.1 "/var/target" 2 envStuck none
      (fun k hk => ⟨rfl, rfl⟩)
  · exact claim_C8_node_unpublish.2.2.2.2.1 "/var/target" 3 envOnce 1 ⟨"pvc-eph", true⟩
      (by rfl)
  · exact claim_C8_node_unpublish.2.2.2.2.1 "/var/target" 3 envOnce 1 ⟨"pvc-reg", false⟩
      (by rfl)
  · exact claim_C8_node_unpublish.2.2.2.2.2 "/var/target" 3 envOnce 1 (by rfl)

/-- C9: the dispatcher aborts INVALID_ARGUMENT with
`Missing required fields: <comma-separated sorted list>` exactly when some
handler parameter without a default (other than request/context) is absent
from the request's present fields, without invoking the handler; otherwise
the handler runs on the present fields.  The advertised list is sorted (in
Python's string order) and holds exactly the missing field names. -/
theorem claim_C9_dispatcher :
    (∀ (α : Type) required present (h1 h2 : List String → Except Err α),
        Instrumented.missingFields required present ≠ [] →
        Instrumented.logged required present h1
          = .error (.abort .invalidArgument
              ("Missing required fields: "
                ++ String.intercalate ", " (Instrumented.missingFields required present)))
          ∧ Instrumented.logged required present h1 = Instrumented.logged required present h2)
    ∧ (∀ required present, Instrumented.missingFields required present ≠ []
        ↔ ∃ f, f ∈ required ∧ f ≠ "request" ∧ f ≠ "context" ∧ f ∉ present)
    ∧ (∀ required present,
        List.Sorted (fun a b => pyStrLe a b = true)
          (Instrumented.missingFields required present)
        ∧ ∀ f, f ∈ Instrumented.missingFields required present
            ↔ (f ∈ required ∧ f ≠ "request" ∧ f ≠ "context" ∧ f ∉ present))
    ∧ (∀ (α : Type) required present (h1 : List String → Except Err α),
        Instrumented.missingFields required present = [] →
        Instrumented.logged required present h1 = h1 present) := by
  refine ⟨?_, ?_, ?_, ?_⟩
  · intro α required present h1 h2 hne
    have he : (Instrumented.missingFields required present).isEmpty = false := by
      cases hm : Instrumented.missingFields required present with
      | nil => exact absurd hm hne
      | cons a t => rfl
    exact ⟨by simp [Instrumented.logged, he], by simp [Instrumented.logged, he]⟩
  · intro required present
    constructor
    · intro h
      obtain ⟨f, hf⟩ := List.exists_mem_of_ne_nil _ h
      exact ⟨f, (missingFields_mem required present f).mp hf⟩
    · rintro ⟨f, hf⟩ h0
      have := (missingFields_mem required present f).mpr hf
      rw [h0] at this
      exact absurd this (List.not_mem_nil f)
  · intro required present
    exact ⟨missingFields_sorted required present, missingFields_mem required present⟩
  · intro α required present h1 h0
    simp [Instrumented.logged, h0]

/-- Witness for C9 at concrete inputs: with required fields volume_id and
target_path but only volume_id present, the RPC aborts INVALID_ARGUMENT
with the sorted missing list and the handler output is irrelevant; with
everything present the handler runs on the present fields. -/
theorem claim_C9_dispatcher_witness :
    Instrumented.logged ["volume_id", "target_path"] ["volume_id"]
        (fun _ => (.ok 0 : Except Err Nat))
      = .error (.abort .invalidArgument "Missing required fields: target_path")
    ∧ Instrumented.logged ["volume_id"] ["volume_id"]
        (fun p => (.ok p.length : Except Err Nat))
      = .ok 1 := by
  constructor
  · exact (claim_C9_dispatcher.1 Nat ["volume_id", "target_path"] ["volume_id"]
      (fun _ => .ok 0) (fun _ => .ok 0) (by decide)).1
  · exact claim_C9_dispatcher.2.2.2 Nat ["volume_id"] ["volume_id"]
      (fun p => .ok p.length) (by decide)

end VastCsi
